import Mathlib

/-!
Verification of the CanSat simulation front-ends (CansatTerminal.py and
flask_app.py).

The two Python scripts are thin front-ends around an external flight
simulation engine.  We embed the repository's own logic shallowly:

* numeric values are modelled as rationals (`ℚ`); the scripts only move
  finite decimal literals around, no float rounding is observable in the
  claims under study;
* the interactive intake loop `get_float_input` is modelled as a function
  of the (finite) list of strings typed by the user, returning the printed
  lines together with either the value returned or the fact that the loop
  is still awaiting input;
* the numpy solution matrix is a `List (List ℚ)` of rows; a column slice
  `solution_array[:, j]` is modelled by `colAccess`, which returns `none`
  exactly when numpy would raise an `IndexError`;
* matplotlib figures are modelled as inert records of the lines, labels
  and legends put on them; the pyplot global open-figure registry is the
  natural number threaded through the server pipeline.
-/

namespace Cansat

/-! ## Model of Python `float(s)` on finite decimal literals

`float` strips surrounding whitespace, accepts an optional sign, an
optional integer part, an optional fractional part (at least one digit in
total between the two) and an optional exponent.  The special forms
`inf`/`nan` are not representable in `ℚ` and the underscore digit
separators are not modelled; neither occurs in any claim. -/

def isSpaceChar (c : Char) : Bool :=
  c = ' ' || c = '\t' || c = '\n' || c = '\r' || c = '\x0b' || c = '\x0c'

/-- Whitespace stripping applied by `float` on both ends of the string. -/
def stripChars (cs : List Char) : List Char :=
  ((cs.dropWhile isSpaceChar).reverse.dropWhile isSpaceChar).reverse

/-- Split an optional leading sign; returns (isNegative, rest). -/
def splitSign : List Char → Bool × List Char
  | '-' :: cs => (true, cs)
  | '+' :: cs => (false, cs)
  | cs => (false, cs)

def takeDigits (cs : List Char) : List Char × List Char :=
  (cs.takeWhile Char.isDigit, cs.dropWhile Char.isDigit)

def digitsVal (ds : List Char) : Nat :=
  ds.foldl (fun a c => 10 * a + (c.toNat - 48)) 0

/-- Parse the optional exponent suffix (`e`/`E`, optional sign, digits);
the whole remainder must be consumed. -/
def parseExp : List Char → Option Int
  | [] => some 0
  | c :: cs =>
    if c = 'e' || c = 'E' then
      let (neg, cs1) := splitSign cs
      let (ds, rest) := takeDigits cs1
      if ds.isEmpty || !rest.isEmpty then none
      else some (if neg then -(digitsVal ds : Int) else (digitsVal ds : Int))
    else none

/-- Numeric value of sign, integer digits, fraction digits and exponent. -/
def decValue (neg : Bool) (ip fp : List Char) (e : Int) : ℚ :=
  let m : Nat := digitsVal (ip ++ fp)
  let net : Int := e - fp.length
  let mag : ℚ :=
    if 0 ≤ net then Rat.divInt (m * 10 ^ net.toNat : Nat) 1
    else Rat.divInt m (10 ^ (-net).toNat : Nat)
  if neg then -mag else mag

/-- Model of Python's `float(s)`: `some q` when `s` is a valid finite
decimal literal, `none` when `float` raises `ValueError`. -/
def pyFloatParse (s : String) : Option ℚ :=
  let cs := stripChars s.toList
  let (neg, cs1) := splitSign cs
  let (ip, r1) := takeDigits cs1
  let (fp, r2) :=
    match r1 with
    | '.' :: rest => takeDigits rest
    | _ => ([], r1)
  if ip.isEmpty && fp.isEmpty then none
  else
    match parseExp r2 with
    | none => none
    | some e => some (decValue neg ip fp e)

/-! ## Parameter intake (`get_float_input`, CansatTerminal.py lines 8–19) -/

/-- Outcome of the intake loop on a finite list of typed responses. -/
inductive IntakeResult where
  | value (v : ℚ)
  | awaiting
deriving DecidableEq

/-- The diagnostic printed on a `ValueError` (CansatTerminal.py line 19). -/
def invalidMsg : String := "Entrada inválida. Por favor, ingrese un número."

/-- The prompt displayed on each loop iteration (CansatTerminal.py line 13). -/
def promptLine (prompt : String) (default_value : ℚ) : String :=
  prompt ++ " [" ++ toString default_value ++ "]: "

/-- `get_float_input(prompt, default_value)` run against the list of
strings the user types, one per loop iteration.  Returns the lines printed
and either the returned value or `awaiting` when the list is exhausted
with the loop still running. -/
def get_float_input (prompt : String) (default_value : ℚ) :
    List String → List String × IntakeResult
  | [] => ([promptLine prompt default_value], IntakeResult.awaiting)
  | value_str :: rest =>
    if value_str = "" then
      ([promptLine prompt default_value], IntakeResult.value default_value)
    else
      match pyFloatParse value_str with
      | some v => ([promptLine prompt default_value], IntakeResult.value v)
      | none =>
        let next := get_float_input prompt default_value rest
        (promptLine prompt default_value :: invalidMsg :: next.1, next.2)

/-! Default parameter values (CansatTerminal.py lines 22–29; the same
literals are repeated in flask_app.py lines 38–45). -/

def default_inclination : ℚ := 90
def default_heading : ℚ := 0
def default_rail_length : ℚ := Rat.divInt 6 5
def default_cansat_mass : ℚ := Rat.divInt 3 10
def default_drag_coeff : ℚ := Rat.divInt 3 5
def default_burn_time : ℚ := 2
def default_avg_thrust : ℚ := 10
def default_elevation : ℚ := 20

/-! ### Intake lemmas -/

/-- A run of non-empty, non-parsable responses is consumed by the loop,
printing one prompt and one diagnostic per response, and the loop then
behaves exactly as if started on the remaining responses. -/
theorem intake_skip_invalid (prompt : String) (d : ℚ) (bad inputs : List String)
    (hbad : ∀ s ∈ bad, s ≠ "" ∧ pyFloatParse s = none) :
    get_float_input prompt d (bad ++ inputs) =
      (bad.foldr (fun _ acc => promptLine prompt d :: invalidMsg :: acc)
         (get_float_input prompt d inputs).1,
       (get_float_input prompt d inputs).2) := by
  induction bad with
  | nil => simp
  | cons s bs ih =>
    obtain ⟨hne, hnone⟩ := hbad s (List.mem_cons_self s bs)
    have ih' := ih (fun t ht => hbad t (List.mem_cons_of_mem s ht))
    simp only [List.cons_append, get_float_input, if_neg hne, hnone, List.foldr_cons,
      List.append_eq, ih']

/-- Any value the loop returns is the default (accepted via empty input)
or the parse of one of the typed responses. -/
theorem intake_value_source (prompt : String) (d : ℚ) (ins : List String) (v : ℚ)
    (h : (get_float_input prompt d ins).2 = IntakeResult.value v) :
    v = d ∨ ∃ s ∈ ins, pyFloatParse s = some v := by
  induction ins with
  | nil => simp [get_float_input] at h
  | cons s rest ih =>
    by_cases hs : s = ""
    · left
      simp only [get_float_input, if_pos hs, IntakeResult.value.injEq] at h
      exact h.symm
    · cases hp : pyFloatParse s with
      | some w =>
        right
        simp only [get_float_input, if_neg hs, hp, IntakeResult.value.injEq] at h
        exact ⟨s, List.mem_cons_self s rest, by rw [hp, h]⟩
      | none =>
        simp only [get_float_input, if_neg hs, hp] at h
        rcases ih h with h1 | ⟨t, ht, hpt⟩
        · exact Or.inl h1
        · exact Or.inr ⟨t, List.mem_cons_of_mem s ht, hpt⟩

/-- C1 (amended): for a response that parses as a float the loop returns
the parsed value; for an empty response it returns the displayed default;
for a non-empty, non-parsable response it does not return but re-prompts,
continuing on the remaining responses. -/
theorem get_float_input_spec (prompt : String) (d : ℚ) (s : String)
    (rest : List String) :
    (s = "" → (get_float_input prompt d (s :: rest)).2 = IntakeResult.value d) ∧
    (∀ v, pyFloatParse s = some v →
      (get_float_input prompt d (s :: rest)).2 = IntakeResult.value v) ∧
    (s ≠ "" → pyFloatParse s = none →
      (get_float_input prompt d (s :: rest)).2 = (get_float_input prompt d rest).2) := by
  refine ⟨?_, ?_, ?_⟩
  · intro h; subst h; simp [get_float_input]
  · intro v hv
    by_cases hs : s = ""
    · subst hs
      rw [(by decide : pyFloatParse "" = none)] at hv
      exact absurd hv (by simp)
    · simp [get_float_input, hs, hv]
  · intro hs hn
    simp [get_float_input, hs, hn]

/-- C1 witness: a valid numeric response yields its parsed value. -/
theorem get_float_input_spec_witness :
    (get_float_input "Empuje promedio del motor (Newtons)" default_avg_thrust
        ["12.0"]).2 = IntakeResult.value 12 :=
  (get_float_input_spec "Empuje promedio del motor (Newtons)" default_avg_thrust
      "12.0" []).2.1 12 (by decide)

/-- C1 counterexample: on the invalid response "abc" the loop does not
return the displayed default (90); it re-prompts and returns the next
response's value 7 instead. -/
theorem intake_invalid_not_default :
    (get_float_input "Ángulo de lanzamiento (grados, 90=vertical)"
        default_inclination ["abc", "7"]).2 = IntakeResult.value 7 ∧
      (7 : ℚ) ≠ default_inclination := by
  exact ⟨by decide, by decide⟩

/-- C2: a run of non-numeric responses is recovered locally: each one
prints the diagnostic and re-prompts, the loop's outcome is that of the
remaining responses, an all-invalid session leaves the loop still
awaiting input, and any returned value is either the accepted default or
the parse of a typed response — never an error. -/
theorem invalid_input_recovered (prompt : String) (d : ℚ)
    (bad inputs : List String)
    (hbad : ∀ s ∈ bad, s ≠ "" ∧ pyFloatParse s = none) :
    (get_float_input prompt d (bad ++ inputs)).2 =
        (get_float_input prompt d inputs).2 ∧
    (get_float_input prompt d (bad ++ inputs)).1 =
        bad.foldr (fun _ acc => promptLine prompt d :: invalidMsg :: acc)
          (get_float_input prompt d inputs).1 ∧
    (get_float_input prompt d bad).2 = IntakeResult.awaiting ∧
    ∀ ins : List String, ∀ v : ℚ,
      (get_float_input prompt d ins).2 = IntakeResult.value v →
        v = d ∨ ∃ s ∈ ins, pyFloatParse s = some v := by
  refine ⟨?_, ?_, ?_, fun ins v h => intake_value_source prompt d ins v h⟩
  · rw [intake_skip_invalid prompt d bad inputs hbad]
  · rw [intake_skip_invalid prompt d bad inputs hbad]
  · have h := intake_skip_invalid prompt d bad [] hbad
    rw [List.append_nil] at h
    rw [h]
    simp [get_float_input]

/-- C2 witness: two invalid responses followed by an empty one end with
the default accepted. -/
theorem invalid_input_recovered_witness :
    (get_float_input "Longitud de la rampa de lanzamiento (metros)"
        default_rail_length (["x", "3,5"] ++ [""])).2 =
      IntakeResult.value default_rail_length := by
  have h := (invalid_input_recovered "Longitud de la rampa de lanzamiento (metros)"
      default_rail_length ["x", "3,5"] [""] (by decide)).1
  rw [h]; decide

/-! ## The solution matrix

`flight.solution` is a numpy-convertible list of state rows
(`[t, x, y, z, vx, vy, vz, e0, e1, e2, e3, wx, wy, wz]`).  We model it as
a list of rows of rationals. -/

/-- Total element count, numpy's `arr.size`. -/
def matSize (m : List (List ℚ)) : Nat := (m.map List.length).sum

/-- Column count, numpy's `arr.shape[1]` (the matrices handed over by the
engine are rectangular, so the first row's length is the width). -/
def matWidth (m : List (List ℚ)) : Nat := (m.headD []).length

/-- Column slice `arr[:, j]`: `some` of the column when `j` is in bounds
for every row, `none` when numpy would raise an `IndexError`. -/
def colAccess (m : List (List ℚ)) (j : Nat) : Option (List ℚ) :=
  if m.all (fun row => j < row.length) then some (m.map (fun row => row.getD j 0))
  else none

/-! ## Matplotlib figures, modelled as inert records -/

/-- One plotted line: the data handed to `plot` plus its label.  `zs` is
empty for 2D lines. -/
structure Line where
  xs : List ℚ
  ys : List ℚ
  zs : List ℚ := []
  label : String
deriving DecidableEq

/-- One axes (subplot): its lines and the decorations set on it. -/
structure Axes where
  lines : List Line
  legendOn : Bool := false
  xlabel : String := ""
  ylabel : String := ""
  zlabel : String := ""
  title : String := ""
  gridOn : Bool := false
  proj3d : Bool := false
deriving DecidableEq

/-- One figure: its `figsize` and its axes in creation order. -/
structure Figure where
  figWidth : ℚ
  figHeight : ℚ
  axesList : List Axes
deriving DecidableEq

/-! ## Terminal-variant rendering (CansatTerminal.py lines 105–146) -/

/-- The 2-panel 2D figure (lines 118–127): altitude `arr[:, 3]` against
time `arr[:, 0]`, then vertical velocity `arr[:, 6]` against time, one
legend per panel.  `none` when a column access raises `IndexError`. -/
def terminalFig2D (sol : List (List ℚ)) : Option Figure := do
  let t ← colAccess sol 0
  let z ← colAccess sol 3
  let vz ← colAccess sol 6
  some { figWidth := 10, figHeight := 8,
         axesList :=
           [{ lines := [{ xs := t, ys := z, label := "Altitud (z)" }],
              legendOn := true },
            { lines := [{ xs := t, ys := vz, label := "Velocidad Vertical (vz)" }],
              legendOn := true }] }

/-- The 3D trajectory figure (lines 131–139): columns 1, 2, 3 as one
polyline, with legend and grid. -/
def terminalFig3D (sol : List (List ℚ)) : Option Figure := do
  let pos_x ← colAccess sol 1
  let pos_y ← colAccess sol 2
  let pos_z ← colAccess sol 3
  some { figWidth := 10, figHeight := 8,
         axesList :=
           [{ lines := [{ xs := pos_x, ys := pos_y, zs := pos_z,
                          label := "Trayectoria del CanSat" }],
              legendOn := true, gridOn := true, proj3d := true }] }

/-- Wall-clock date and time, the input of `datetime.datetime.now()`. -/
structure DateTime where
  year : Nat
  month : Nat
  day : Nat
  hour : Nat
  minute : Nat
  second : Nat
deriving DecidableEq

def digitChar (n : Nat) : Char := Char.ofNat (48 + n % 10)

/-- Two-digit zero-padded field (`%m`, `%d`, `%H`, `%M`, `%S`); exact for
the values a Python `datetime` can hold (all below 100). -/
def pad2 (n : Nat) : String := String.mk [digitChar (n / 10), digitChar n]

/-- Four-digit zero-padded year (`%Y`); exact for Python `datetime` years
(1 to 9999). -/
def pad4 (n : Nat) : String :=
  String.mk [digitChar (n / 1000), digitChar (n / 100), digitChar (n / 10), digitChar n]

/-- `datetime.now().strftime("%Y%m%d_%H%M%S") + '.png'` (line 142). -/
def generate_file_name_custom (now : DateTime) : String :=
  pad4 now.year ++ pad2 now.month ++ pad2 now.day ++ "_" ++
    pad2 now.hour ++ pad2 now.minute ++ pad2 now.second ++ ".png"

/-- What a completed terminal run produced: the file written by
`plt.savefig` and the figures displayed by `plt.show`. -/
structure TerminalRun where
  savedFile : String
  savedFig : Figure
  shownFigs : List Figure
deriving DecidableEq

/-- Outcome of the terminal script after the simulation: the
empty-results guard (warning printed, `exit()`), an uncaught
`IndexError` from a column access (abrupt termination), or a completed
run. -/
inductive TerminalOutcome where
  | warnExit
  | indexError
  | done (r : TerminalRun)
deriving DecidableEq

/-- CansatTerminal.py lines 105–146: guard on `solution_array.size == 0`,
then build the 2D and 3D figures, save to the timestamped PNG and show
both figures.  `plt.savefig` writes the *current* figure, which at line
143 is the 3D figure created last. -/
def runTerminalRender (sol : List (List ℚ)) (now : DateTime) : TerminalOutcome :=
  if matSize sol = 0 then TerminalOutcome.warnExit
  else
    match terminalFig2D sol with
    | none => TerminalOutcome.indexError
    | some fig2d =>
      match terminalFig3D sol with
      | none => TerminalOutcome.indexError
      | some fig3d =>
        TerminalOutcome.done
          { savedFile := generate_file_name_custom now,
            savedFig := fig3d,
            shownFigs := [fig2d, fig3d] }

/-! ## Server-variant model (flask_app.py)

The external engine is opaque: a request either makes it raise an
exception (anywhere inside the `try` before rendering starts) or hand
over an apogee and a solution matrix.  `hasZPlot` records whether the
engine's `flight.z` object offers a `plot` method (the primary altitude
path, line 148); `zSeries` is the altitude-vs-time data that path would
draw. -/

structure EngineResult where
  apogee : ℚ
  sol : List (List ℚ)
  hasZPlot : Bool
  zSeries : List (ℚ × ℚ)
deriving DecidableEq

inductive EngineOutcome where
  | raises (msg : String) (tb : String)
  | ok (r : EngineResult)
deriving DecidableEq

/-- A fragment of the response body: literal markup, or an inlined
base64 PNG image of a figure (the base64 payload itself is opaque; the
figure it encodes is kept). -/
inductive HtmlPiece where
  | text (s : String)
  | image (fig : Figure) (alt : String)
deriving DecidableEq

/-- flask_app.py line 132. -/
def noGraphFragment (apogee : ℚ) : String :=
  "<p>Error: La simulación no produjo resultados graficables. Apogeo: " ++
    toString apogee ++ "</p>"

/-- flask_app.py line 139. -/
def advertenciaFragment (apogee : ℚ) : String :=
  "<p>ADVERTENCIA: La simulación no produjo resultados válidos. Apogeo: " ++
    toString apogee ++ " m</p>"

/-- flask_app.py line 143. -/
def headerFragment (apogee : ℚ) : String :=
  "<h2>Simulación Completada</h2><p>Apogeo (calculado por RocketPy): " ++
    toString apogee ++ " m</p>"

/-- flask_app.py line 190: the top-level `except` renders the exception
and its traceback into an HTML error fragment. -/
def errorFragment (msg tb : String) : String :=
  "<h2>Error en la Simulación</h2><p>Ha ocurrido un error:</p><pre>" ++ msg ++
    "</pre><pre>" ++ tb ++ "</pre>"

/-- flask_app.py line 181. -/
def no3dDataMsg : String :=
  "<p>No hay suficientes datos en solution_array para la trayectoria 3D (se necesitan columnas para x, y, z).</p>"

/-- numpy's message for an out-of-bounds column access. -/
def indexErrorMsg (j w : Nat) : String :=
  "index " ++ toString j ++ " is out of bounds for axis 1 with size " ++ toString w

/-- Stand-in for `traceback.format_exc()`. -/
def modelTraceback : String := "Traceback (most recent call last):"

/-- First of columns 1, 2, 3 whose access fails (used only to name the
failing index in the modelled `IndexError`). -/
def first3dBadCol (sol : List (List ℚ)) : Nat :=
  if (colAccess sol 1).isNone then 1 else if (colAccess sol 2).isNone then 2 else 3

/-- The altitude figure (flask_app.py lines 146–157): one axes; the
primary path plots the engine's `flight.z` series, the fallback plots
`arr[:, 3]` against `arr[:, 0]`.  `none` when the fallback's column
access raises `IndexError`. -/
def serverAltFig (r : EngineResult) : Option Figure :=
  if r.hasZPlot then
    some { figWidth := 10, figHeight := 6,
           axesList :=
             [{ lines := [{ xs := r.zSeries.map Prod.fst, ys := r.zSeries.map Prod.snd,
                            label := "Altitud (z vs t)" }],
                legendOn := true, gridOn := true, xlabel := "Tiempo (s)",
                ylabel := "Altitud (m)", title := "Altitud del CanSat vs. Tiempo" }] }
  else do
    let t ← colAccess r.sol 0
    let z ← colAccess r.sol 3
    some { figWidth := 10, figHeight := 6,
           axesList :=
             [{ lines := [{ xs := t, ys := z, label := "Altitud (z)" }],
                legendOn := true, gridOn := true, xlabel := "Tiempo (s)",
                ylabel := "Altitud (m)", title := "Altitud del CanSat vs. Tiempo" }] }

/-- The 3D trajectory figure (flask_app.py lines 164–176). -/
def server3DFig (sol : List (List ℚ)) : Option Figure := do
  let x_flight ← colAccess sol 1
  let y_flight ← colAccess sol 2
  let z_flight ← colAccess sol 3
  some { figWidth := 10, figHeight := 8,
         axesList :=
           [{ lines := [{ xs := x_flight, ys := y_flight, zs := z_flight,
                          label := "Trayectoria del CanSat" }],
              legendOn := true, xlabel := "Posición X (m)", ylabel := "Posición Y (m)",
              zlabel := "Posición Z (Altitud) (m)", title := "Trayectoria 3D del CanSat" }] }

/-- `ejecutar_simulacion_y_graficar` (flask_app.py lines 31–190), as a
function of the engine's behaviour and of the pyplot open-figure count.
Figure bookkeeping: `plt.subplots`/`plt.figure` opens one figure,
`fig_to_base64` closes the figure it encodes (line 27); an `IndexError`
escaping to the top-level `except` leaves the figure it interrupted
open. -/
def ejecutar_simulacion_y_graficar (eo : EngineOutcome) (openFigs : Nat) :
    List HtmlPiece × Nat :=
  match eo with
  | EngineOutcome.raises msg tb => ([HtmlPiece.text (errorFragment msg tb)], openFigs)
  | EngineOutcome.ok r =>
    if r.sol.length ≤ 1 then
      ([HtmlPiece.text (noGraphFragment r.apogee)], openFigs)
    else if matSize r.sol = 0 ∨ r.sol.length ≤ 1 then
      ([HtmlPiece.text (advertenciaFragment r.apogee)], openFigs)
    else
      let n1 := openFigs + 1
      match serverAltFig r with
      | none =>
        ([HtmlPiece.text
            (errorFragment (indexErrorMsg 3 (matWidth r.sol)) modelTraceback)], n1)
      | some fig_alt =>
        let htmlSoFar := [HtmlPiece.text (headerFragment r.apogee),
          HtmlPiece.text "<h3>Altitud vs Tiempo</h3>",
          HtmlPiece.image fig_alt "Altitud vs Tiempo"]
        let n2 := n1 - 1
        if 3 < matWidth r.sol then
          match server3DFig r.sol with
          | none =>
            ([HtmlPiece.text
                (errorFragment (indexErrorMsg (first3dBadCol r.sol) (matWidth r.sol))
                  modelTraceback)], n2 + 1)
          | some fig3d =>
            (htmlSoFar ++ [HtmlPiece.text "<h3>Trayectoria 3D</h3>",
              HtmlPiece.image fig3d "Trayectoria 3D"], n2 + 1 - 1)
        else
          (htmlSoFar ++ [HtmlPiece.text no3dDataMsg], n2)

/-- The literal markup the `home` route places before `resultado_html`
(flask_app.py lines 199–231; the doubled braces of the f-string denote
literal braces). -/
def pageHead : String :=
  "\n    <!DOCTYPE html>\n    <html lang=\"es\">\n    <head>\n        <meta charset=\"UTF-8\">\n        <meta name=\"viewport\" content=\"width=device-width, initial-scale=1.0\">\n        <title>Simulación CanSat Sencilla con Flask</title>\n        <style>\n            body \x7b font-family: Arial, sans-serif; margin: 20px; line-height: 1.6; \x7d\n            h1, h2, h3 \x7b color: #333; \x7d\n            img \x7b\n                border: 1px solid #ddd;\n                margin-top: 10px;\n                margin-bottom: 20px;\n                max-width: 100%;\n                height: auto;\n                display: block;\n            \x7d\n            p \x7b color: #555; \x7d\n            pre \x7b\n                background-color: #f4f4f4;\n                padding: 15px;\n                border: 1px solid #ccc;\n                overflow-x: auto;\n                white-space: pre-wrap;\n                word-wrap: break-word;\n            \x7d\n            .container \x7b max-width: 900px; margin: auto; padding: 20px; \x7d\n        </style>\n    </head>\n    <body>\n        <div class=\"container\">\n            <h1>Resultado de la Simulación del CanSat</h1>\n            "

/-- The literal markup after `resultado_html` (lines 232–236). -/
def pageTail : String := "\n        </div>\n    </body>\n    </html>\n    "

/-- The `home` route (flask_app.py lines 193–237): wraps the simulation
output in the page template.  Flask turns a returned string into an HTTP
200 response, so the status is part of the model.  The open-figure count
is threaded through unchanged. -/
def home (eo : EngineOutcome) (openFigs : Nat) : (Nat × List HtmlPiece) × Nat :=
  let res := ejecutar_simulacion_y_graficar eo openFigs
  ((200, HtmlPiece.text pageHead :: res.1 ++ [HtmlPiece.text pageTail]), res.2)

/-- `w` occurs as a substring of `s`. -/
def containsStr (w s : String) : Prop := ∃ pre post : String, s = pre ++ w ++ post

/-- Some literal-markup piece of the body contains `w`. -/
def piecesContain (w : String) (ps : List HtmlPiece) : Prop :=
  ∃ s, HtmlPiece.text s ∈ ps ∧ containsStr w s

/-! ### Matrix lemmas -/

theorem colAccess_of_lt (m : List (List ℚ)) (j : Nat)
    (h : ∀ row ∈ m, j < row.length) :
    colAccess m j = some (m.map (fun row => row.getD j 0)) := by
  unfold colAccess
  rw [if_pos]
  simp only [List.all_eq_true, decide_eq_true_eq]
  exact h

theorem colAccess_none (m : List (List ℚ)) (j : Nat) (row : List ℚ)
    (hrow : row ∈ m) (h : row.length ≤ j) : colAccess m j = none := by
  unfold colAccess
  rw [if_neg]
  simp only [List.all_eq_true, decide_eq_true_eq, not_forall]
  exact ⟨row, hrow, by omega⟩

theorem matWidth_of_rect (m : List (List ℚ)) (w : Nat)
    (hw : ∀ row ∈ m, row.length = w) (h0 : m ≠ []) : matWidth m = w := by
  cases m with
  | nil => exact absurd rfl h0
  | cons r rs =>
    have h1 : r.length = w := hw r (List.mem_cons_self r rs)
    simpa [matWidth] using h1

theorem matSize_ne_zero (m : List (List ℚ)) (w : Nat)
    (hw : ∀ row ∈ m, row.length = w) (h0 : m ≠ []) (hwpos : 1 ≤ w) :
    matSize m ≠ 0 := by
  cases m with
  | nil => exact absurd rfl h0
  | cons r rs =>
    have h1 : r.length = w := hw r (List.mem_cons_self r rs)
    unfold matSize
    simp only [List.map_cons, List.sum_cons]
    omega

/-! ### C3: degenerate-solution guards -/

/-- C3 counterexample: a one-row (1×7) solution matrix is *not* caught by
the terminal guard (`solution_array.size == 0` is false at size 7); the
script proceeds to render and save both figures instead of warning and
exiting. -/
theorem terminal_single_row_renders :
    runTerminalRender [[0, 0, 0, 1, 0, 0, 2]] ⟨2025, 5, 3, 22, 52, 0⟩ =
      TerminalOutcome.done
        { savedFile := "20250503_225200.png",
          savedFig :=
            { figWidth := 10, figHeight := 8,
              axesList :=
                [{ lines := [{ xs := [0], ys := [0], zs := [1],
                               label := "Trayectoria del CanSat" }],
                   legendOn := true, gridOn := true, proj3d := true }] },
          shownFigs :=
            [{ figWidth := 10, figHeight := 8,
               axesList :=
                 [{ lines := [{ xs := [0], ys := [1], label := "Altitud (z)" }],
                    legendOn := true },
                  { lines := [{ xs := [0], ys := [2],
                                label := "Velocidad Vertical (vz)" }],
                    legendOn := true }] },
             { figWidth := 10, figHeight := 8,
               axesList :=
                 [{ lines := [{ xs := [0], ys := [0], zs := [1],
                                label := "Trayectoria del CanSat" }],
                    legendOn := true, gridOn := true, proj3d := true }] }] } := by
  decide

/-- C3 (amended): the terminal variant warns and exits exactly when the
matrix has zero total elements (in particular for zero rows) — a one-row
matrix passes its guard and is rendered; the server variant answers any
matrix with at most one row with the descriptive HTML error fragment,
without creating any figure. -/
theorem degenerate_solution_guards (sol : List (List ℚ)) (now : DateTime)
    (r : EngineResult) (n : Nat) :
    (matSize sol = 0 → runTerminalRender sol now = TerminalOutcome.warnExit) ∧
    (r.sol.length ≤ 1 →
      ejecutar_simulacion_y_graficar (EngineOutcome.ok r) n =
        ([HtmlPiece.text (noGraphFragment r.apogee)], n)) := by
  constructor
  · intro h
    simp [runTerminalRender, h]
  · intro h
    simp [ejecutar_simulacion_y_graficar, h]

/-- C3 witness: the empty matrix makes the terminal warn-and-exit, and a
one-row matrix makes the server return the error fragment. -/
theorem degenerate_solution_guards_witness :
    runTerminalRender [] ⟨2025, 5, 3, 22, 52, 0⟩ = TerminalOutcome.warnExit ∧
    ejecutar_simulacion_y_graficar
        (EngineOutcome.ok ⟨0, [[1, 2]], true, []⟩) 0 =
      ([HtmlPiece.text (noGraphFragment 0)], 0) := by
  have h := degenerate_solution_guards [] ⟨2025, 5, 3, 22, 52, 0⟩
    ⟨0, [[1, 2]], true, []⟩ 0
  exact ⟨h.1 (by decide), h.2 (by decide)⟩

/-! ### C9: positional column indexing -/

/-- C9: on a nonempty rectangular matrix of width `w`, the five columns
the terminal rendering reads (0, 1, 2, 3 and 6) are all in bounds exactly
when `w ≥ 7`; on any narrower matrix column 6 is out of bounds, and with
at least one column the script reaches the unguarded access and dies with
an `IndexError` — no code validates the column count first. -/
theorem column_indexing_bounds (sol : List (List ℚ)) (w : Nat) (now : DateTime)
    (hw : ∀ row ∈ sol, row.length = w) (h0 : sol ≠ []) :
    (((colAccess sol 0).isSome ∧ (colAccess sol 1).isSome ∧
      (colAccess sol 2).isSome ∧ (colAccess sol 3).isSome ∧
      (colAccess sol 6).isSome) ↔ 7 ≤ w) ∧
    (w < 7 → colAccess sol 6 = none) ∧
    (1 ≤ w → w < 7 → runTerminalRender sol now = TerminalOutcome.indexError) := by
  obtain ⟨r0, hr0⟩ : ∃ r, r ∈ sol := by
    cases sol with
    | nil => exact absurd rfl h0
    | cons r rs => exact ⟨r, List.mem_cons_self r rs⟩
  have key : ∀ j : Nat, (colAccess sol j).isSome ↔ j < w := by
    intro j
    constructor
    · intro hs
      by_contra hlt
      rw [colAccess_none sol j r0 hr0 (by rw [hw r0 hr0]; omega)] at hs
      simp at hs
    · intro hj
      rw [colAccess_of_lt sol j (fun r hr => by rw [hw r hr]; exact hj)]
      simp
  have h6 : w < 7 → colAccess sol 6 = none := by
    intro hlt
    cases hc : colAccess sol 6 with
    | none => rfl
    | some c =>
      have : (6 : Nat) < w := (key 6).mp (by rw [hc]; simp)
      omega
  refine ⟨?_, h6, ?_⟩
  · constructor
    · rintro ⟨-, -, -, -, hs6⟩
      have := (key 6).mp hs6
      omega
    · intro h7
      exact ⟨(key 0).mpr (by omega), (key 1).mpr (by omega), (key 2).mpr (by omega),
        (key 3).mpr (by omega), (key 6).mpr (by omega)⟩
  · intro hwpos hlt
    have hfig : terminalFig2D sol = none := by
      unfold terminalFig2D
      cases hc0 : colAccess sol 0 with
      | none => rfl
      | some t =>
        cases hc3 : colAccess sol 3 with
        | none => rfl
        | some z => simp [h6 hlt]
    unfold runTerminalRender
    rw [if_neg (matSize_ne_zero sol w hw h0 hwpos), hfig]

/-- C9 witness: a 2×4 matrix (columns t, x, y, z only) crashes the
terminal rendering with an `IndexError`, and on a 2×7 matrix every read
column is in bounds. -/
theorem column_indexing_bounds_witness :
    runTerminalRender [[0, 0, 0, 0], [1, 1, 1, 1]] ⟨2025, 5, 3, 22, 52, 0⟩ =
        TerminalOutcome.indexError ∧
    (colAccess [[0, 0, 0, 1, 0, 0, 2], [1, 3, 4, 5, 6, 7, 8]] 6).isSome := by
  constructor
  · exact (column_indexing_bounds [[0, 0, 0, 0], [1, 1, 1, 1]] 4
      ⟨2025, 5, 3, 22, 52, 0⟩ (by decide) (by decide)).2.2 (by decide) (by decide)
  · exact ((column_indexing_bounds [[0, 0, 0, 1, 0, 0, 2], [1, 3, 4, 5, 6, 7, 8]] 7
      ⟨2025, 5, 3, 22, 52, 0⟩ (by decide) (by decide)).1.mpr (by decide)).2.2.2.2

/-! ### C4: what the 2D figures trace -/

/-- C4 counterexample: the server variant does not produce the claimed
2-panel figure.  On a valid 2×7 matrix every figure in its output has
exactly one axes and no trace labelled "Velocidad Vertical (vz)". -/
theorem server_fig_single_panel :
    ((ejecutar_simulacion_y_graficar
        (EngineOutcome.ok ⟨5, [[0, 0, 0, 1, 0, 0, 2], [1, 3, 4, 5, 6, 7, 8]], false, []⟩)
        0).1.any (fun p =>
          match p with
          | HtmlPiece.image _ _ => true
          | HtmlPiece.text _ => false)) = true ∧
    ((ejecutar_simulacion_y_graficar
        (EngineOutcome.ok ⟨5, [[0, 0, 0, 1, 0, 0, 2], [1, 3, 4, 5, 6, 7, 8]], false, []⟩)
        0).1.all (fun p =>
          match p with
          | HtmlPiece.image fig _ =>
            fig.axesList.length == 1 &&
              fig.axesList.all (fun a =>
                a.lines.all (fun l => l.label != "Velocidad Vertical (vz)"))
          | HtmlPiece.text _ => true)) = true := by
  exact ⟨by decide, by decide⟩

/-- C4 (amended): on a rectangular matrix with at least 7 columns the
terminal variant produces the claimed 2-panel figure — altitude trace
exactly column 3 against column 0, vertical-velocity trace exactly
column 6 against column 0, one legend per panel — while the server
variant's 2D figure is a single-panel altitude chart (its fallback trace
is column 3 against column 0, with legend) and has no velocity panel. -/
theorem rendering_trace_columns (sol : List (List ℚ)) (w : Nat)
    (hw : ∀ row ∈ sol, row.length = w) (h7 : 7 ≤ w) (ap : ℚ)
    (zs : List (ℚ × ℚ)) :
    terminalFig2D sol =
      some { figWidth := 10, figHeight := 8,
             axesList :=
               [{ lines := [{ xs := sol.map (fun row => row.getD 0 0),
                              ys := sol.map (fun row => row.getD 3 0),
                              label := "Altitud (z)" }],
                  legendOn := true },
                { lines := [{ xs := sol.map (fun row => row.getD 0 0),
                              ys := sol.map (fun row => row.getD 6 0),
                              label := "Velocidad Vertical (vz)" }],
                  legendOn := true }] } ∧
    serverAltFig ⟨ap, sol, false, zs⟩ =
      some { figWidth := 10, figHeight := 6,
             axesList :=
               [{ lines := [{ xs := sol.map (fun row => row.getD 0 0),
                              ys := sol.map (fun row => row.getD 3 0),
                              label := "Altitud (z)" }],
                  legendOn := true, gridOn := true, xlabel := "Tiempo (s)",
                  ylabel := "Altitud (m)",
                  title := "Altitud del CanSat vs. Tiempo" }] } := by
  have h0 : ∀ row ∈ sol, 0 < row.length := fun r hr => by rw [hw r hr]; omega
  have h3 : ∀ row ∈ sol, 3 < row.length := fun r hr => by rw [hw r hr]; omega
  have h6 : ∀ row ∈ sol, 6 < row.length := fun r hr => by rw [hw r hr]; omega
  constructor
  · simp [terminalFig2D, colAccess_of_lt sol 0 h0, colAccess_of_lt sol 3 h3,
      colAccess_of_lt sol 6 h6]
  · simp [serverAltFig, colAccess_of_lt sol 0 h0, colAccess_of_lt sol 3 h3]

/-- C4 witness: the traces on a concrete 2×7 matrix. -/
theorem rendering_trace_columns_witness :
    terminalFig2D [[0, 0, 0, 1, 0, 0, 2], [1, 3, 4, 5, 6, 7, 8]] =
      some { figWidth := 10, figHeight := 8,
             axesList :=
               [{ lines := [{ xs := [0, 1], ys := [1, 5], label := "Altitud (z)" }],
                  legendOn := true },
                { lines := [{ xs := [0, 1], ys := [2, 8],
                              label := "Velocidad Vertical (vz)" }],
                  legendOn := true }] } := by
  have h := (rendering_trace_columns [[0, 0, 0, 1, 0, 0, 2], [1, 3, 4, 5, 6, 7, 8]] 7
    (by decide) (by decide) 0 []).1
  rw [h]
  decide

/-! ### C7: the terminal's persisted artifact -/

theorem digitChar_isDigit (n : Nat) : (digitChar n).isDigit = true := by
  unfold digitChar
  have h : n % 10 < 10 := Nat.mod_lt _ (by norm_num)
  generalize n % 10 = m at h
  interval_cases m <;> decide

theorem pad2_shape (n : Nat) :
    (pad2 n).length = 2 ∧ (pad2 n).data.all Char.isDigit = true := by
  unfold pad2
  exact ⟨rfl, by simp [String.data, digitChar_isDigit]⟩

theorem pad4_shape (n : Nat) :
    (pad4 n).length = 4 ∧ (pad4 n).data.all Char.isDigit = true := by
  unfold pad4
  exact ⟨rfl, by simp [String.data, digitChar_isDigit]⟩

/-- C7 counterexample: `plt.savefig` writes only the figure that is
current at line 143 — the 3D trajectory figure.  On a concrete 2×7
matrix the persisted figure is the 3D one, which differs from the
2-panel time-series figure; the latter is only displayed. -/
theorem savefig_saves_only_current_figure :
    runTerminalRender [[0, 0, 0, 1, 0, 0, 2], [1, 3, 4, 5, 6, 7, 8]]
        ⟨2025, 5, 3, 22, 52, 0⟩ =
      TerminalOutcome.done
        { savedFile := "20250503_225200.png",
          savedFig :=
            { figWidth := 10, figHeight := 8,
              axesList :=
                [{ lines := [{ xs := [0, 3], ys := [0, 4], zs := [1, 5],
                               label := "Trayectoria del CanSat" }],
                   legendOn := true, gridOn := true, proj3d := true }] },
          shownFigs :=
            [{ figWidth := 10, figHeight := 8,
               axesList :=
                 [{ lines := [{ xs := [0, 1], ys := [1, 5], label := "Altitud (z)" }],
                    legendOn := true },
                  { lines := [{ xs := [0, 1], ys := [2, 8],
                                label := "Velocidad Vertical (vz)" }],
                    legendOn := true }] },
             { figWidth := 10, figHeight := 8,
               axesList :=
                 [{ lines := [{ xs := [0, 3], ys := [0, 4], zs := [1, 5],
                                label := "Trayectoria del CanSat" }],
                    legendOn := true, gridOn := true, proj3d := true }] }] } ∧
    ({ figWidth := 10, figHeight := 8,
       axesList :=
         [{ lines := [{ xs := [0, 3], ys := [0, 4], zs := [1, 5],
                        label := "Trayectoria del CanSat" }],
            legendOn := true, gridOn := true, proj3d := true }] } : Figure) ≠
      { figWidth := 10, figHeight := 8,
        axesList :=
          [{ lines := [{ xs := [0, 1], ys := [1, 5], label := "Altitud (z)" }],
             legendOn := true },
           { lines := [{ xs := [0, 1], ys := [2, 8],
                         label := "Velocidad Vertical (vz)" }],
             legendOn := true }] } := by
  exact ⟨by decide, by decide⟩

/-- C7 (amended): a successful terminal run saves exactly one PNG — the
figure current at save time, i.e. the 3D trajectory figure — under the
timestamped name `YYYYMMDD_HHMMSS.png` (8 digits, underscore, 6 digits,
".png"), and then shows both figures interactively. -/
theorem terminal_saves_png_timestamped (sol : List (List ℚ)) (w : Nat)
    (now : DateTime) (hw : ∀ row ∈ sol, row.length = w) (h7 : 7 ≤ w)
    (h0 : sol ≠ []) :
    ∃ fig2d fig3d : Figure,
      terminalFig2D sol = some fig2d ∧ terminalFig3D sol = some fig3d ∧
      runTerminalRender sol now =
        TerminalOutcome.done
          { savedFile := generate_file_name_custom now,
            savedFig := fig3d, shownFigs := [fig2d, fig3d] } ∧
      ∃ date time : String,
        generate_file_name_custom now = date ++ "_" ++ time ++ ".png" ∧
        date.length = 8 ∧ time.length = 6 ∧
        (date.data ++ time.data).all Char.isDigit = true := by
  have h0' : ∀ row ∈ sol, 0 < row.length := fun r hr => by rw [hw r hr]; omega
  have h1' : ∀ row ∈ sol, 1 < row.length := fun r hr => by rw [hw r hr]; omega
  have h2' : ∀ row ∈ sol, 2 < row.length := fun r hr => by rw [hw r hr]; omega
  have h3' : ∀ row ∈ sol, 3 < row.length := fun r hr => by rw [hw r hr]; omega
  have h6' : ∀ row ∈ sol, 6 < row.length := fun r hr => by rw [hw r hr]; omega
  have hfig2 : terminalFig2D sol ≠ none := by
    simp [terminalFig2D, colAccess_of_lt sol 0 h0', colAccess_of_lt sol 3 h3',
      colAccess_of_lt sol 6 h6']
  have hfig3 : terminalFig3D sol ≠ none := by
    simp [terminalFig3D, colAccess_of_lt sol 1 h1', colAccess_of_lt sol 2 h2',
      colAccess_of_lt sol 3 h3']
  obtain ⟨fig2d, hf2⟩ := Option.ne_none_iff_exists'.mp hfig2
  obtain ⟨fig3d, hf3⟩ := Option.ne_none_iff_exists'.mp hfig3
  refine ⟨fig2d, fig3d, hf2, hf3, ?_, ?_⟩
  · unfold runTerminalRender
    rw [if_neg (matSize_ne_zero sol w hw h0 (by omega)), hf2, hf3]
  · refine ⟨pad4 now.year ++ pad2 now.month ++ pad2 now.day,
      pad2 now.hour ++ pad2 now.minute ++ pad2 now.second, ?_, ?_, ?_, ?_⟩
    · unfold generate_file_name_custom
      simp [String.append_assoc]
    · simp [String.length_append, (pad4_shape now.year).1, (pad2_shape now.month).1,
        (pad2_shape now.day).1]
    · simp [String.length_append, (pad2_shape now.hour).1, (pad2_shape now.minute).1,
        (pad2_shape now.second).1]
    · simp [String.data_append, List.all_append, (pad4_shape now.year).2,
        (pad2_shape now.month).2, (pad2_shape now.day).2, (pad2_shape now.hour).2,
        (pad2_shape now.minute).2, (pad2_shape now.second).2]

/-- C7 witness: the amended statement instantiated on a concrete 2×7
matrix and the fixed simulation date. -/
theorem terminal_saves_png_timestamped_witness :
    ∃ fig2d fig3d : Figure,
      terminalFig2D [[0, 0, 0, 1, 0, 0, 2], [1, 3, 4, 5, 6, 7, 8]] = some fig2d ∧
      terminalFig3D [[0, 0, 0, 1, 0, 0, 2], [1, 3, 4, 5, 6, 7, 8]] = some fig3d ∧
      runTerminalRender [[0, 0, 0, 1, 0, 0, 2], [1, 3, 4, 5, 6, 7, 8]]
          ⟨2025, 5, 3, 22, 52, 0⟩ =
        TerminalOutcome.done
          { savedFile := generate_file_name_custom ⟨2025, 5, 3, 22, 52, 0⟩,
            savedFig := fig3d, shownFigs := [fig2d, fig3d] } ∧
      ∃ date time : String,
        generate_file_name_custom ⟨2025, 5, 3, 22, 52, 0⟩ =
          date ++ "_" ++ time ++ ".png" ∧
        date.length = 8 ∧ time.length = 6 ∧
        (date.data ++ time.data).all Char.isDigit = true :=
  terminal_saves_png_timestamped [[0, 0, 0, 1, 0, 0, 2], [1, 3, 4, 5, 6, 7, 8]] 7
    ⟨2025, 5, 3, 22, 52, 0⟩ (by decide) (by decide) (by decide)

/-! ### C5: the server's top-level exception guard -/

theorem containsStr_append_right (w s t : String) (h : containsStr w s) :
    containsStr w (s ++ t) := by
  obtain ⟨pre, post, hp⟩ := h
  exact ⟨pre, post ++ t, by rw [hp, String.append_assoc, String.append_assoc]⟩

theorem errorFragment_contains (msg tb : String) :
    containsStr "Error" (errorFragment msg tb) := by
  unfold errorFragment
  have h : ("<h2>Error en la Simulación</h2><p>Ha ocurrido un error:</p><pre>" : String) =
      "<h2>" ++ "Error" ++ " en la Simulación</h2><p>Ha ocurrido un error:</p><pre>" := by
    decide
  rw [h]
  exact containsStr_append_right _ _ _ (containsStr_append_right _ _ _
    (containsStr_append_right _ _ _ (containsStr_append_right _ _ _
      ⟨"<h2>", " en la Simulación</h2><p>Ha ocurrido un error:</p><pre>", rfl⟩)))

theorem noGraphFragment_contains (ap : ℚ) :
    containsStr "Error" (noGraphFragment ap) := by
  unfold noGraphFragment
  have h : ("<p>Error: La simulación no produjo resultados graficables. Apogeo: " : String) =
      "<p>" ++ "Error" ++ ": La simulación no produjo resultados graficables. Apogeo: " := by
    decide
  rw [h]
  exact containsStr_append_right _ _ _ (containsStr_append_right _ _ _
    ⟨"<p>", ": La simulación no produjo resultados graficables. Apogeo: ", rfl⟩)

/-- C5: whatever the engine does, the single route answers HTTP 200 — the
whole pipeline sits inside `try`/`except`, so an engine exception is
rendered (with its traceback) into an error fragment of the body rather
than escaping as a server error; both the exception fragment and the
degenerate-solution fragment put the word "Error" in the body. -/
theorem server_top_level_catch (eo : EngineOutcome) (n : Nat) :
    ((home eo n).1).1 = 200 ∧
    (∀ msg tb, eo = EngineOutcome.raises msg tb →
      piecesContain "Error" ((home eo n).1.2) ∧
      HtmlPiece.text (errorFragment msg tb) ∈ (home eo n).1.2) ∧
    (∀ r, eo = EngineOutcome.ok r → r.sol.length ≤ 1 →
      piecesContain "Error" ((home eo n).1.2)) := by
  refine ⟨?_, ?_, ?_⟩
  · cases eo <;> rfl
  · rintro msg tb rfl
    have hmem : HtmlPiece.text (errorFragment msg tb) ∈
        (home (EngineOutcome.raises msg tb) n).1.2 := by
      simp [home, ejecutar_simulacion_y_graficar]
    exact ⟨⟨errorFragment msg tb, hmem, errorFragment_contains msg tb⟩, hmem⟩
  · rintro r rfl hlen
    refine ⟨noGraphFragment r.apogee, ?_, noGraphFragment_contains r.apogee⟩
    simp [home, ejecutar_simulacion_y_graficar, hlen]

/-- C5 witness: a concrete engine exception yields a 200 response whose
body contains "Error". -/
theorem server_top_level_catch_witness :
    ((home (EngineOutcome.raises "boom" "Traceback (most recent call last):") 0).1).1
        = 200 ∧
    piecesContain "Error"
      ((home (EngineOutcome.raises "boom" "Traceback (most recent call last):") 0).1.2) := by
  have h := server_top_level_catch
    (EngineOutcome.raises "boom" "Traceback (most recent call last):") 0
  exact ⟨h.1, (h.2.1 "boom" "Traceback (most recent call last):" rfl).1⟩

/-! ### C6: figure lifetime on the server -/

/-- C6: on any request whose rendering completes (the engine hands over a
rectangular matrix and the altitude panel can be drawn — via the engine's
z-series or, with at least 4 columns, via the fallback), every figure
opened by the pipeline is closed again by `fig_to_base64`, so the pyplot
open-figure count ends where it started; from zero it returns to zero,
2D and 3D charts combined. -/
theorem figures_closed_after_render (r : EngineResult) (w : Nat) (n : Nat)
    (hw : ∀ row ∈ r.sol, row.length = w)
    (hok : r.hasZPlot = true ∨ 4 ≤ w) :
    (ejecutar_simulacion_y_graficar (EngineOutcome.ok r) n).2 = n := by
  unfold ejecutar_simulacion_y_graficar
  by_cases h1 : r.sol.length ≤ 1
  · simp [h1]
  · have halt : (serverAltFig r).isSome := by
      rcases hok with hz | hw4
      · simp [serverAltFig, hz]
      · have ht : ∀ row ∈ r.sol, 0 < row.length := fun row hr => by
          rw [hw row hr]; omega
        have hz3 : ∀ row ∈ r.sol, 3 < row.length := fun row hr => by
          rw [hw row hr]; omega
        cases hzp : r.hasZPlot with
        | true => simp [serverAltFig, hzp]
        | false =>
          simp [serverAltFig, hzp, colAccess_of_lt r.sol 0 ht,
            colAccess_of_lt r.sol 3 hz3]
    obtain ⟨fig_alt, hfa⟩ := Option.isSome_iff_exists.mp halt
    by_cases h2 : matSize r.sol = 0 ∨ r.sol.length ≤ 1
    · have hsz : matSize r.sol = 0 := by
        rcases h2 with h | h
        · exact h
        · exact absurd h h1
      simp [h1, hsz]
    · have hsz : ¬ matSize r.sol = 0 := fun h => h2 (Or.inl h)
      by_cases h3 : 3 < matWidth r.sol
      · have hne : r.sol ≠ [] := by
          intro hnil
          rw [hnil] at h1
          simp at h1
        have hw4 : 3 < w := by
          rwa [matWidth_of_rect r.sol w hw hne] at h3
        have hc1 : ∀ row ∈ r.sol, 1 < row.length := fun row hr => by
          rw [hw row hr]; omega
        have hc2 : ∀ row ∈ r.sol, 2 < row.length := fun row hr => by
          rw [hw row hr]; omega
        have hc3 : ∀ row ∈ r.sol, 3 < row.length := fun row hr => by
          rw [hw row hr]; omega
        have h3d : (server3DFig r.sol).isSome := by
          simp [server3DFig, colAccess_of_lt r.sol 1 hc1,
            colAccess_of_lt r.sol 2 hc2, colAccess_of_lt r.sol 3 hc3]
        obtain ⟨fig3d, hf3⟩ := Option.isSome_iff_exists.mp h3d
        simp [h1, hsz, h3, hfa, hf3]
      · simp [h1, hsz, h3, hfa]

/-- C6 witness: a default-shaped request (z-series available, 2×7 matrix)
started with zero open figures ends with zero open figures. -/
theorem figures_closed_after_render_witness :
    (ejecutar_simulacion_y_graficar
        (EngineOutcome.ok ⟨5, [[0, 0, 0, 1, 0, 0, 2], [1, 3, 4, 5, 6, 7, 8]], true,
          [(0, 1), (1, 5)]⟩) 0).2 = 0 :=
  figures_closed_after_render
    ⟨5, [[0, 0, 0, 1, 0, 0, 2], [1, 3, 4, 5, 6, 7, 8]], true, [(0, 1), (1, 5)]⟩ 7 0
    (by decide) (Or.inl rfl)

/-! ### C10: the server's 3D column-count guard -/

/-- C10: with more than one row but at most 3 columns (and the engine's
z-series available for the altitude panel, which is drawn first), the
server skips the 3D trajectory entirely — the output is exactly the
header, the altitude heading and image, and the explanatory message, so
columns 1–3 are never indexed, no 3D image is emitted, and the figure
count is balanced. -/
theorem narrow_matrix_skips_3d (r : EngineResult) (w : Nat) (n : Nat)
    (hw : ∀ row ∈ r.sol, row.length = w) (hrows : 2 ≤ r.sol.length)
    (hwlo : 1 ≤ w) (hwhi : w ≤ 3) (hz : r.hasZPlot = true) :
    ∃ fig_alt : Figure,
      serverAltFig r = some fig_alt ∧
      ejecutar_simulacion_y_graficar (EngineOutcome.ok r) n =
        ([HtmlPiece.text (headerFragment r.apogee),
          HtmlPiece.text "<h3>Altitud vs Tiempo</h3>",
          HtmlPiece.image fig_alt "Altitud vs Tiempo",
          HtmlPiece.text no3dDataMsg], n) := by
  have hne : r.sol ≠ [] := by
    intro hnil
    rw [hnil] at hrows
    simp at hrows
  have h1 : ¬ r.sol.length ≤ 1 := by omega
  have h2 : ¬ (matSize r.sol = 0 ∨ r.sol.length ≤ 1) := by
    rintro (hsz | hlen)
    · exact matSize_ne_zero r.sol w hw hne hwlo hsz
    · omega
  have h3 : ¬ 3 < matWidth r.sol := by
    rw [matWidth_of_rect r.sol w hw hne]
    omega
  refine ⟨({ figWidth := 10, figHeight := 6,
             axesList :=
               [{ lines := [{ xs := r.zSeries.map Prod.fst,
                              ys := r.zSeries.map Prod.snd,
                              label := "Altitud (z vs t)" }],
                  legendOn := true, gridOn := true, xlabel := "Tiempo (s)",
                  ylabel := "Altitud (m)",
                  title := "Altitud del CanSat vs. Tiempo" }] } : Figure),
    ?_, ?_⟩
  · simp [serverAltFig, hz]
  · have hsz : ¬ matSize r.sol = 0 := fun h => h2 (Or.inl h)
    unfold ejecutar_simulacion_y_graficar
    simp [h1, hsz, h3, serverAltFig, hz]

/-- C10 witness: a 2×3 matrix (t, x, y only) still yields the altitude
image plus the explanatory message, with no 3D image. -/
theorem narrow_matrix_skips_3d_witness :
    ∃ fig_alt : Figure,
      serverAltFig ⟨7, [[0, 0, 1], [1, 0, 2]], true, [(0, 1), (1, 2)]⟩ = some fig_alt ∧
      ejecutar_simulacion_y_graficar
          (EngineOutcome.ok ⟨7, [[0, 0, 1], [1, 0, 2]], true, [(0, 1), (1, 2)]⟩) 0 =
        ([HtmlPiece.text (headerFragment 7),
          HtmlPiece.text "<h3>Altitud vs Tiempo</h3>",
          HtmlPiece.image fig_alt "Altitud vs Tiempo",
          HtmlPiece.text no3dDataMsg], 0) :=
  narrow_matrix_skips_3d ⟨7, [[0, 0, 1], [1, 0, 2]], true, [(0, 1), (1, 2)]⟩ 3 0
    (by decide) (by decide) (by decide) (by decide) rfl

/-! ### C8: the two motor descriptors -/

/-- How a motor's thrust is described to the engine: a constant scalar or
a piecewise-linear curve of (time, thrust) points. -/
inductive ThrustSource where
  | scalar (t : ℚ)
  | curve (pts : List (ℚ × ℚ))
deriving DecidableEq

/-- The modern `SolidMotor` keyword set used by CansatTerminal.py
(lines 54–72). -/
structure SolidMotorNew where
  thrust_source : ThrustSource
  burn_time : ℚ
  dry_mass : ℚ
  dry_inertia : ℚ × ℚ × ℚ
  center_of_dry_mass_position : ℚ
  grains_center_of_mass_position : ℚ
  grain_number : Nat
  grain_separation : ℚ
  grain_density : ℚ
  grain_outer_radius : ℚ
  grain_initial_inner_radius : ℚ
  grain_initial_height : ℚ
  nozzle_radius : ℚ
  throat_radius : ℚ
  interpolation_method : String
  nozzle_position : ℚ
  coordinate_system_orient : String
deriving DecidableEq

/-- The legacy `SolidMotor` keyword set used by flask_app.py
(lines 71–82). -/
structure SolidMotorOld where
  thrustSource : ThrustSource
  burnOut : ℚ
  grainNumber : Nat
  grainDensity : ℚ
  grainOuterRadius : ℚ
  grainInitialInnerRadius : ℚ
  grainInitialHeight : ℚ
  nozzleRadius : ℚ
  throatRadius : ℚ
  interpolationMethod : String
deriving DecidableEq

/-- CansatTerminal.py lines 54–72: the terminal motor, thrust passed as
the plain scalar `user_avg_thrust`. -/
def gas_motor (user_avg_thrust user_burn_time : ℚ) : SolidMotorNew :=
  { thrust_source := ThrustSource.scalar user_avg_thrust,
    burn_time := user_burn_time,
    dry_mass := Rat.divInt 1 2,
    dry_inertia := (Rat.divInt 1 50, Rat.divInt 1 50, Rat.divInt 1 1000),
    center_of_dry_mass_position := Rat.divInt 3 20,
    grains_center_of_mass_position := Rat.divInt 1 5,
    grain_number := 1,
    grain_separation := Rat.divInt 1 200,
    grain_density := 1700,
    grain_outer_radius := Rat.divInt 1 50,
    grain_initial_inner_radius := Rat.divInt 1 200,
    grain_initial_height := Rat.divInt 2 25,
    nozzle_radius := Rat.divInt 1 100,
    throat_radius := Rat.divInt 1 200,
    interpolation_method := "linear",
    nozzle_position := 0,
    coordinate_system_orient := "nozzle_to_combustion_chamber" }

/-- flask_app.py line 69: `thrust_curve = [(0, avg_thrust), (burn_time, avg_thrust)]`. -/
def thrust_curve (avg_thrust burn_time : ℚ) : List (ℚ × ℚ) :=
  [(0, avg_thrust), (burn_time, avg_thrust)]

/-- flask_app.py lines 71–82: the server motor, thrust passed as the
two-point constant curve. -/
def GasMotor (avg_thrust burn_time : ℚ) : SolidMotorOld :=
  { thrustSource := ThrustSource.curve (thrust_curve avg_thrust burn_time),
    burnOut := burn_time,
    grainNumber := 1,
    grainDensity := 1800,
    grainOuterRadius := Rat.divInt 1 50,
    grainInitialInnerRadius := Rat.divInt 1 200,
    grainInitialHeight := Rat.divInt 1 20,
    nozzleRadius := Rat.divInt 1 100,
    throatRadius := Rat.divInt 1 200,
    interpolationMethod := "linear" }

/-- C8: both motors take the same burn time, but the terminal encodes the
thrust as the constant scalar `T` while the server encodes it as the
two-point constant curve `[(0, T), (B, T)]`. -/
theorem motor_thrust_encoding (T B : ℚ) :
    (gas_motor T B).thrust_source = ThrustSource.scalar T ∧
    (gas_motor T B).burn_time = B ∧
    (GasMotor T B).thrustSource = ThrustSource.curve [(0, T), (B, T)] ∧
    (GasMotor T B).burnOut = B :=
  ⟨rfl, rfl, rfl, rfl⟩

/-- C8 witness: the default thrust (10 N) and burn time (2 s). -/
theorem motor_thrust_encoding_witness :
    (gas_motor default_avg_thrust default_burn_time).thrust_source =
        ThrustSource.scalar 10 ∧
    (GasMotor default_avg_thrust default_burn_time).thrustSource =
        ThrustSource.curve [(0, 10), (2, 10)] :=
  ⟨(motor_thrust_encoding default_avg_thrust default_burn_time).1,
   (motor_thrust_encoding default_avg_thrust default_burn_time).2.2.1⟩

end Cansat
